import Mathlib

/-!
Shallow embedding of the snake game engine in `src/game.rs` (the
`GameState`/`Snake`/`Food`/`Action` module).  Machine integers (`u16`, `u32`)
are modelled as `Nat`; in the Rust source the only subtractions are
`width - 1` / `height - 1` (guarded by grid size) and the `-= 1` steps in
`Position::move_direction`, whose potential underflow is modelled separately
by the predicate `advance_underflows` below.  The `rand::Rng::gen_range(lo..hi)`
draw is modelled as `lo + r % (hi - lo)` for an arbitrary oracle value `r`,
which ranges exactly over `[lo, hi)` whenever `lo < hi`, matching the
contract of `gen_range`.  `VecDeque` is modelled as `List` with the front at
the head: `push_front` is `cons`, `pop_back` is `dropLast`.
-/

namespace SnakeGame

/-- The `Direction` enum from game.rs. -/
inductive Direction where
  | Up : Direction
  | Down : Direction
  | Left : Direction
  | Right : Direction
deriving DecidableEq, Repr

/-- Heading reversal, `Direction::reverse` from game.rs. -/
def Direction.reverse : Direction → Direction
  | Direction.Up => Direction.Down
  | Direction.Down => Direction.Up
  | Direction.Left => Direction.Right
  | Direction.Right => Direction.Left

/-- The `Position` struct from game.rs (`x`, `y` are `u16`). -/
structure Position where
  x : Nat
  y : Nat
deriving DecidableEq, Repr

/-- Border test, `Position::is_on_border` from game.rs. -/
def Position.is_on_border (p : Position) (width height : Nat) : Bool :=
  p.x == 0 || p.y == height - 1 || p.x == width - 1 || p.y == 0

/-- Unit translation, `Position::move_direction` from game.rs.  The `Up`/`Left` branches do
`y -= 1` / `x -= 1` on `u16`; here `Nat` subtraction truncates at 0, and the
underflow condition is tracked separately by `move_underflows`. -/
def Position.move_direction (p : Position) (direction : Direction) : Position :=
  match direction with
  | Direction.Up => { p with y := p.y - 1 }
  | Direction.Down => { p with y := p.y + 1 }
  | Direction.Left => { p with x := p.x - 1 }
  | Direction.Right => { p with x := p.x + 1 }

/-- The `Snake` struct from game.rs.  The `tail` `VecDeque` is a list, front first. -/
structure Snake where
  head : Position
  tail : List Position
  direction : Direction
  grow : Bool
deriving Repr

/-- Constructor `Snake::new` from game.rs. -/
def Snake.new (initial_x initial_y : Nat) : Snake :=
  { head := Position.mk initial_x initial_y
    tail := []
    direction := Direction.Right
    grow := false }

/-- Step `Snake::move_direction` from game.rs: move the head one step; when the
tail is non-empty, push the old head on the front and pop the back. -/
def Snake.move_direction (s : Snake) : Snake :=
  let old_head := s.head
  let new_head := s.head.move_direction s.direction
  if s.tail.isEmpty then
    { s with head := new_head }
  else
    { s with head := new_head, tail := (old_head :: s.tail).dropLast }

/-- Growth step `Snake::move_and_grow` from game.rs: move the head one step and push the
old head on the front of the tail (no pop). -/
def Snake.move_and_grow (s : Snake) : Snake :=
  { s with head := s.head.move_direction s.direction, tail := s.head :: s.tail }

/-- Self-collision test, `Snake::self_collision` from game.rs. -/
def Snake.self_collision (s : Snake) : Bool :=
  s.tail.any (fun pos => pos.x == s.head.x && pos.y == s.head.y)

/-- The draw `rand::Rng::gen_range(lo..hi)` modelled with an arbitrary draw `r`:
the result is `lo + r % (hi - lo)`, which for `lo < hi` is exactly a value
in `[lo, hi)`. -/
def gen_range (lo hi r : Nat) : Nat := lo + r % (hi - lo)

/-- The `Food` struct from game.rs. -/
structure Food where
  position : Position
deriving Repr

/-- Target respawn `Food::new` from game.rs: a random position with
`x ∈ gen_range(1..max_width-1)` and `y ∈ gen_range(1..max_height-1)`.
The two raw draws of the thread rng are the oracle arguments `rx`, `ry`. -/
def Food.new (max_width max_height rx ry : Nat) : Food :=
  { position := Position.mk (gen_range 1 (max_width - 1) rx) (gen_range 1 (max_height - 1) ry) }

/-- The `Action` record from game.rs. -/
structure Action where
  snake_head : Position
  change_direction : Option Direction
  must_grow : Bool
  food_position : Position
  is_reverse : Bool
deriving Repr

/-- Constructor `Action::new` from game.rs: fills `food_position` with `(0,0)` and
`is_reverse` with `false`. -/
def Action.new (snake_head : Position) (change_direction : Option Direction)
    (must_grow : Bool) : Action :=
  { snake_head := snake_head
    change_direction := change_direction
    must_grow := must_grow
    food_position := Position.mk 0 0
    is_reverse := false }

/-- Logical inverse `Action::reverse` from game.rs. -/
def Action.reverse (action : Action) : Action :=
  { snake_head := action.snake_head
    change_direction := action.change_direction.map Direction.reverse
    must_grow := !action.must_grow
    food_position := action.food_position
    is_reverse := true }

/-- The `crossterm` `KeyCode` values relevant to `GameState::get_action`:
the four arrow keys, and `Other` standing for every other key (the `_`
branch of the source `match`). -/
inductive KeyCode where
  | Up : KeyCode
  | Down : KeyCode
  | Left : KeyCode
  | Right : KeyCode
  | Other : KeyCode
deriving DecidableEq, Repr

/-- The closure inside `GameState::get_action` that maps a raw key code to an
optional direction (arrow keys map to directions, everything else to none). -/
def key_direction : KeyCode → Option Direction
  | KeyCode.Up => some Direction.Up
  | KeyCode.Down => some Direction.Down
  | KeyCode.Left => some Direction.Left
  | KeyCode.Right => some Direction.Right
  | KeyCode.Other => none

/-- The `GameState` struct from game.rs. -/
structure GameState where
  snake : Snake
  food : Food
  score : Nat
  game_width : Nat
  game_height : Nat
  actions : List Action
deriving Repr

/-- Constructor `GameState::new` from game.rs (with the two rng draws of the initial
`Food::new` made explicit). -/
def GameState.new (game_width game_height rx ry : Nat) : GameState :=
  { snake := Snake.new (game_width / 2) (game_height / 2)
    food := Food.new game_width game_height rx ry
    score := 0
    game_width := game_width
    game_height := game_height
    actions := [] }

/-- Transition `GameState::next` from game.rs: push the action on the log, apply the
direction change, then — when `must_grow` — `move_and_grow`, respawn the food
and bump the score, and finally (unconditionally) `move_direction`.  The two
rng draws of the respawn are the oracle arguments `rx`, `ry`. -/
def GameState.next (s : GameState) (action : Action) (rx ry : Nat) : GameState :=
  let s1 := { s with actions := s.actions ++ [action] }
  let s2 :=
    match action.change_direction with
    | some new_direction => { s1 with snake := { s1.snake with direction := new_direction } }
    | none => s1
  let s3 :=
    if action.must_grow then
      { s2 with snake := s2.snake.move_and_grow
                food := Food.new s2.game_width s2.game_height rx ry
                score := s2.score + 1 }
    else s2
  { s3 with snake := s3.snake.move_direction }

/-- Terminal-state query `GameState::is_game_over` from game.rs. -/
def GameState.is_game_over (s : GameState) : Bool :=
  s.snake.head.is_on_border s.game_width s.game_height || s.snake.self_collision

/-- Input sanitization `GameState::get_action` from game.rs: sanitize the raw input and record
the current head together with the growth flag computed from the current
(pre-move) head. -/
def GameState.get_action (s : GameState) (user_input : Option KeyCode) : Action :=
  let direction := user_input.bind key_direction
  let must_grow := s.snake.head == s.food.position
  match direction with
  | none => Action.new s.snake.head none must_grow
  | some new_direction =>
    if new_direction ≠ s.snake.direction ∧ new_direction ≠ s.snake.direction.reverse then
      Action.new s.snake.head (some new_direction) must_grow
    else
      Action.new s.snake.head none must_grow

/-- One tick of the engine as the spec's `advance`: sanitize the input with
`get_action` and feed the resulting action to `next` (this is how the run
loop drives `GameState`). -/
def GameState.advance (s : GameState) (user_input : Option KeyCode) (rx ry : Nat) : GameState :=
  s.next (s.get_action user_input) rx ry

/-- Holds exactly when the Rust `Position::move_direction` would execute a
`u16` subtraction `0 - 1` for this position and direction (moving `Up` at
`y = 0` or `Left` at `x = 0`). -/
def move_underflows (p : Position) (d : Direction) : Bool :=
  match d with
  | Direction.Up => p.y == 0
  | Direction.Left => p.x == 0
  | _ => false

/-- Holds exactly when the Rust `GameState::next`, fed the action
`get_action` builds for this input, would execute a `u16` subtraction
`0 - 1`: the direction after the change is applied drives one move on a
non-growth tick, and two consecutive moves (`move_and_grow` then
`move_direction`) on a growth tick. -/
def advance_underflows (s : GameState) (user_input : Option KeyCode) : Bool :=
  let action := s.get_action user_input
  let d :=
    match action.change_direction with
    | some new_direction => new_direction
    | none => s.snake.direction
  if action.must_grow then
    move_underflows s.snake.head d || move_underflows (s.snake.head.move_direction d) d
  else
    move_underflows s.snake.head d

/-- States reachable from a fresh `GameState` by any sequence of `advance`
calls, over all grid sizes, inputs and rng draws. -/
inductive Reachable : GameState → Prop where
  | fresh : ∀ w h rx ry, Reachable (GameState.new w h rx ry)
  | step : ∀ s input rx ry, Reachable s → Reachable (s.advance input rx ry)

/-! Helper lemmas about the transition. -/

theorem Snake.move_direction_dir (s : Snake) : s.move_direction.direction = s.direction := by
  unfold Snake.move_direction
  by_cases h : s.tail.isEmpty <;> simp [h]

theorem Snake.move_and_grow_dir (s : Snake) : s.move_and_grow.direction = s.direction := rfl

theorem Snake.move_direction_tail_length (s : Snake) :
    s.move_direction.tail.length = s.tail.length := by
  unfold Snake.move_direction
  by_cases h : s.tail.isEmpty
  · simp [h]
  · simp [h, List.length_dropLast]

theorem Snake.move_and_grow_tail_length (s : Snake) :
    s.move_and_grow.tail.length = s.tail.length + 1 := rfl

theorem GameState.next_actions (s : GameState) (a : Action) (rx ry : Nat) :
    (s.next a rx ry).actions = s.actions ++ [a] := by
  unfold GameState.next Snake.move_direction
  cases a.change_direction <;> by_cases hg : a.must_grow <;> simp [hg]

theorem GameState.next_direction (s : GameState) (a : Action) (rx ry : Nat) :
    (s.next a rx ry).snake.direction = a.change_direction.getD s.snake.direction := by
  unfold GameState.next
  cases a.change_direction <;> by_cases hg : a.must_grow <;>
    simp [hg, Snake.move_direction_dir, Snake.move_and_grow_dir, Option.getD]

theorem GameState.next_score (s : GameState) (a : Action) (rx ry : Nat) :
    (s.next a rx ry).score = if a.must_grow then s.score + 1 else s.score := by
  unfold GameState.next Snake.move_direction
  cases a.change_direction <;> by_cases hg : a.must_grow <;> simp [hg]

theorem GameState.next_tail_length (s : GameState) (a : Action) (rx ry : Nat) :
    (s.next a rx ry).snake.tail.length =
      if a.must_grow then s.snake.tail.length + 1 else s.snake.tail.length := by
  unfold GameState.next
  cases a.change_direction <;> by_cases hg : a.must_grow <;>
    simp [hg, Snake.move_direction_tail_length, Snake.move_and_grow_tail_length]

theorem GameState.get_action_must_grow (s : GameState) (input : Option KeyCode) :
    (s.get_action input).must_grow = (s.snake.head == s.food.position) := by
  unfold GameState.get_action
  cases h : input.bind key_direction <;> simp [h, Action.new] <;> split <;> rfl

theorem GameState.get_action_snake_head (s : GameState) (input : Option KeyCode) :
    (s.get_action input).snake_head = s.snake.head := by
  unfold GameState.get_action
  cases h : input.bind key_direction <;> simp [h, Action.new] <;> split <;> rfl

theorem Position.eq_iff (p q : Position) : p = q ↔ p.x = q.x ∧ p.y = q.y := by
  cases p
  cases q
  simp

/-! Claim theorems. -/

/-- C4: `is_game_over` returns `true` iff the organism's head is on the grid
border — `x = 0 ∨ x = width-1 ∨ y = 0 ∨ y = height-1` — or the head equals
some position currently in the body, and `false` otherwise.  (In the
embedding it is a pure function of the state, so it mutates nothing.) -/
theorem C4_is_game_over_iff (s : GameState) :
    s.is_game_over = true ↔
      ((s.snake.head.x = 0 ∨ s.snake.head.x = s.game_width - 1 ∨
        s.snake.head.y = 0 ∨ s.snake.head.y = s.game_height - 1) ∨
       s.snake.head ∈ s.snake.tail) := by
  unfold GameState.is_game_over Snake.self_collision Position.is_on_border
  simp only [Bool.or_eq_true, beq_iff_eq, List.any_eq_true, Bool.and_eq_true]
  constructor
  · rintro (hb | ⟨pos, hmem, hx, hy⟩)
    · exact Or.inl (by tauto)
    · have hpq : pos = s.snake.head := (Position.eq_iff pos s.snake.head).mpr ⟨hx, hy⟩
      exact Or.inr (hpq ▸ hmem)
  · rintro (hb | hmem)
    · exact Or.inl (by tauto)
    · exact Or.inr ⟨s.snake.head, hmem, rfl, rfl⟩

/-- C5: sanitization in `get_action`: the accepted direction is `none` when
no key is pressed, `none` when the key does not map to a direction, `none`
when the pressed direction equals the current heading or its reverse, and
`some` of the pressed direction otherwise; consequently feeding the reverse
of the current heading through `get_action` and the transition leaves the
heading unchanged, for every state (hence every body length). -/
theorem C5_input_sanitization :
    (∀ s : GameState, (s.get_action none).change_direction = none) ∧
    (∀ (s : GameState) (k : KeyCode), key_direction k = none →
      (s.get_action (some k)).change_direction = none) ∧
    (∀ (s : GameState) (k : KeyCode) (d : Direction), key_direction k = some d →
      (s.get_action (some k)).change_direction =
        if d = s.snake.direction ∨ d = s.snake.direction.reverse then none else some d) ∧
    (∀ (s : GameState) (k : KeyCode) (rx ry : Nat),
      key_direction k = some s.snake.direction.reverse →
      (s.advance (some k) rx ry).snake.direction = s.snake.direction) := by
  refine ⟨fun s => rfl, ?_, ?_, ?_⟩
  · intro s k hk
    unfold GameState.get_action
    simp [hk, Action.new]
  · intro s k d hk
    unfold GameState.get_action
    simp only [Option.some_bind, hk]
    split_ifs with h1 h2 <;> simp [Action.new] <;> tauto
  · intro s k rx ry hk
    have hcd : (s.get_action (some k)).change_direction = none := by
      unfold GameState.get_action
      simp [hk, Action.new]
    unfold GameState.advance
    rw [GameState.next_direction, hcd]
    rfl

/-- C5 witness: on a fresh 5×5 state (heading `Right`), the key `Left` maps
to the reverse of the heading and is rejected, and an unmapped key yields no
direction change. -/
theorem C5_input_sanitization_witness :
    (((GameState.new 5 5 0 0).get_action (some KeyCode.Other)).change_direction = none) ∧
    (((GameState.new 5 5 0 0).get_action (some KeyCode.Left)).change_direction =
      if Direction.Left = (GameState.new 5 5 0 0).snake.direction ∨
         Direction.Left = (GameState.new 5 5 0 0).snake.direction.reverse then none
       else some Direction.Left) ∧
    (((GameState.new 5 5 0 0).advance (some KeyCode.Left) 0 0).snake.direction =
      (GameState.new 5 5 0 0).snake.direction) :=
  ⟨C5_input_sanitization.2.1 (GameState.new 5 5 0 0) KeyCode.Other rfl,
   C5_input_sanitization.2.2.1 (GameState.new 5 5 0 0) KeyCode.Left Direction.Left rfl,
   C5_input_sanitization.2.2.2 (GameState.new 5 5 0 0) KeyCode.Left 0 0 rfl⟩

/-- C8: for every grid with `width ≥ 5` and `height ≥ 5` and every pair of
rng draws, the position chosen by `Food::new` satisfies `1 ≤ x ≤ width-2`
and `1 ≤ y ≤ height-2`, and in particular is never a border cell. -/
theorem C8_food_spawn_interior (w h rx ry : Nat) (hw : 5 ≤ w) (hh : 5 ≤ h) :
    (1 ≤ (Food.new w h rx ry).position.x ∧ (Food.new w h rx ry).position.x ≤ w - 2) ∧
    (1 ≤ (Food.new w h rx ry).position.y ∧ (Food.new w h rx ry).position.y ≤ h - 2) ∧
    (Food.new w h rx ry).position.is_on_border w h = false := by
  have hx : rx % (w - 1 - 1) < w - 1 - 1 := Nat.mod_lt _ (by omega)
  have hy : ry % (h - 1 - 1) < h - 1 - 1 := Nat.mod_lt _ (by omega)
  unfold Food.new gen_range Position.is_on_border
  simp only [Bool.or_eq_false_iff, beq_eq_false_iff_ne, ne_eq]
  omega

/-- C8 witness: at the minimum 5×5 grid with draws 7 and 9 the spawned
target is strictly inside the border. -/
theorem C8_food_spawn_interior_witness :
    (1 ≤ (Food.new 5 5 7 9).position.x ∧ (Food.new 5 5 7 9).position.x ≤ 5 - 2) ∧
    (1 ≤ (Food.new 5 5 7 9).position.y ∧ (Food.new 5 5 7 9).position.y ≤ 5 - 2) ∧
    (Food.new 5 5 7 9).position.is_on_border 5 5 = false :=
  C8_food_spawn_interior 5 5 7 9 (by norm_num) (by norm_num)

/-- C9: `Action::reverse` yields an action with the same recorded head
position, the direction change mapped through `Direction::reverse`
(`Up ↔ Down`, `Left ↔ Right`, an involution) and the growth flag negated. -/
theorem C9_action_reverse_spec (a : Action) (d : Direction) :
    (Action.reverse a).snake_head = a.snake_head ∧
    (Action.reverse a).change_direction = a.change_direction.map Direction.reverse ∧
    (Action.reverse a).must_grow = !a.must_grow ∧
    d.reverse.reverse = d ∧
    Direction.Up.reverse = Direction.Down ∧ Direction.Down.reverse = Direction.Up ∧
    Direction.Left.reverse = Direction.Right ∧ Direction.Right.reverse = Direction.Left := by
  refine ⟨rfl, rfl, rfl, ?_, rfl, rfl, rfl, rfl⟩
  cases d <;> rfl

/-- C10: every action built by `Action::new` has `food_position = (0,0)` and
`is_reverse = false`; so does every action `get_action` produces, and hence
the single entry each tick appends to the log. -/
theorem C10_action_defaults :
    (∀ (p : Position) (cd : Option Direction) (mg : Bool),
      (Action.new p cd mg).food_position = Position.mk 0 0 ∧
      (Action.new p cd mg).is_reverse = false) ∧
    (∀ (s : GameState) (input : Option KeyCode),
      (s.get_action input).food_position = Position.mk 0 0 ∧
      (s.get_action input).is_reverse = false) ∧
    (∀ (s : GameState) (input : Option KeyCode) (rx ry : Nat),
      ∃ a : Action, (s.advance input rx ry).actions = s.actions ++ [a] ∧
        a.food_position = Position.mk 0 0 ∧ a.is_reverse = false) := by
  have hga : ∀ (s : GameState) (input : Option KeyCode),
      (s.get_action input).food_position = Position.mk 0 0 ∧
      (s.get_action input).is_reverse = false := by
    intro s input
    unfold GameState.get_action
    cases hd : input.bind key_direction <;> simp [hd, Action.new] <;> split <;> simp [Action.new]
  refine ⟨fun p cd mg => ⟨rfl, rfl⟩, hga, ?_⟩
  intro s input rx ry
  exact ⟨s.get_action input, GameState.next_actions s _ rx ry, (hga s input).1, (hga s input).2⟩

/-- The scenario state of C1: 5×5 grid, head (2,2), heading Right, empty
body, target at (3,2), score 0, empty log. -/
def c1_state : GameState :=
  { snake := { head := Position.mk 2 2, tail := [], direction := Direction.Right, grow := false }
    food := { position := Position.mk 3 2 }
    score := 0
    game_width := 5
    game_height := 5
    actions := [] }

/-- C1 counterexample: in the scenario state the post-move head (3,2) equals
the target, yet the growth flag the code computes is `false`, the score stays
0 and the body stays empty after one tick — the code compares the pre-move
head with the target, not the post-move head. -/
theorem C1_counterexample :
    c1_state.snake.head.move_direction c1_state.snake.direction = c1_state.food.position ∧
    (c1_state.get_action none).must_grow = false ∧
    (c1_state.advance none 0 0).score = 0 ∧
    (c1_state.advance none 0 0).snake.tail = [] := by
  decide

/-- C1 amended: on every tick the growth flag is `true` iff the pre-move
head equals the target position; in the 5×5 scenario with head (2,2),
heading Right, empty body and target (3,2), a single `advance(None)` yields
no growth: the head moves to (3,2), the score stays 0 and the body stays
empty. -/
theorem C1_grew_from_premove_head :
    (∀ (s : GameState) (input : Option KeyCode),
      (s.get_action input).must_grow = (s.snake.head == s.food.position)) ∧
    (c1_state.advance none 0 0).snake.head = Position.mk 3 2 ∧
    (c1_state.get_action none).must_grow = (c1_state.snake.head == c1_state.food.position) ∧
    (c1_state.advance none 0 0).score = 0 ∧
    (c1_state.advance none 0 0).snake.tail = [] := by
  refine ⟨fun s input => GameState.get_action_must_grow s input, ?_, ?_, ?_, ?_⟩ <;> decide

/-- The failing state of C2: 5×5 grid, head (3,2) sitting on the target
(3,2), heading Right, empty body — the next tick is a growth tick. -/
def c2_state : GameState :=
  { snake := { head := Position.mk 3 2, tail := [], direction := Direction.Right, grow := false }
    food := { position := Position.mk 3 2 }
    score := 0
    game_width := 5
    game_height := 5
    actions := [] }

/-- The non-growth example state of C2: body [(2,2)], head (3,2), heading
Right, target elsewhere. -/
def c2_nongrow_state : GameState :=
  { snake := { head := Position.mk 3 2, tail := [Position.mk 2 2], direction := Direction.Right,
               grow := false }
    food := { position := Position.mk 1 1 }
    score := 1
    game_width := 5
    game_height := 5
    actions := [] }

/-- C2 bug evaluation: on the growth tick from `c2_state` the code runs
`move_and_grow` *and then* `move_direction`, so the head ends at (5,2) — two
unit steps from (3,2) — while a single unit step in the heading is (4,2).
On the non-growth tick from `c2_nongrow_state` the head does move exactly
one step, to (4,2), with the body becoming [(3,2)] of unchanged length. -/
theorem C2_growth_tick_double_move :
    (c2_state.get_action none).must_grow = true ∧
    c2_state.snake.head.move_direction c2_state.snake.direction = Position.mk 4 2 ∧
    (c2_state.advance none 0 0).snake.head = Position.mk 5 2 ∧
    (c2_state.advance none 0 0).snake.tail = [Position.mk 4 2] ∧
    (c2_nongrow_state.get_action none).must_grow = false ∧
    (c2_nongrow_state.advance none 0 0).snake.head = Position.mk 4 2 ∧
    (c2_nongrow_state.advance none 0 0).snake.tail = [Position.mk 3 2] := by
  decide

/-- The C3 run, tick by tick: a fresh 5×5 game whose initial food draw is
(1,2); the head starts at (2,2) heading Right. -/
def c3_s0 : GameState := GameState.new 5 5 0 1

/-- After pressing Up: head (2,1), heading Up. -/
def c3_s1 : GameState := c3_s0.advance (some KeyCode.Up) 0 0

/-- After pressing Left: head (1,1), heading Left. -/
def c3_s2 : GameState := c3_s1.advance (some KeyCode.Left) 0 0

/-- After pressing Down: head (1,2), heading Down, sitting on the food. -/
def c3_s3 : GameState := c3_s2.advance (some KeyCode.Down) 0 0

/-- C3 bug evaluation: every state of the run is non-terminal, so the
`is_terminal`-gated loop keeps ticking; the next tick (press Left) is a
growth tick whose second head move subtracts 1 from `x` when it is already
0 — a `u16` underflow reached with the run loop stopping at `is_terminal`
as the claim requires. -/
theorem C3_underflow_reachable :
    c3_s0.is_game_over = false ∧
    c3_s1.is_game_over = false ∧
    c3_s2.is_game_over = false ∧
    c3_s3.is_game_over = false ∧
    (c3_s3.get_action (some KeyCode.Left)).must_grow = true ∧
    advance_underflows c3_s3 (some KeyCode.Left) = true := by
  decide

/-- C6: for every state reachable from a fresh game by any sequence of
ticks, the score equals the body length, and a tick changes both by the same
amount: a growth tick adds exactly one to each, a non-growth tick changes
neither — so both are non-decreasing across a run. -/
theorem C6_score_eq_tail_length :
    (∀ s : GameState, Reachable s → s.score = s.snake.tail.length) ∧
    (∀ (s : GameState) (input : Option KeyCode) (rx ry : Nat),
      ((s.get_action input).must_grow = true →
        (s.advance input rx ry).score = s.score + 1 ∧
        (s.advance input rx ry).snake.tail.length = s.snake.tail.length + 1) ∧
      ((s.get_action input).must_grow = false →
        (s.advance input rx ry).score = s.score ∧
        (s.advance input rx ry).snake.tail.length = s.snake.tail.length)) := by
  constructor
  · intro s hs
    induction hs with
    | fresh w h rx ry => rfl
    | step s input rx ry _ ih =>
      unfold GameState.advance
      rw [GameState.next_score, GameState.next_tail_length, ih]
  · intro s input rx ry
    unfold GameState.advance
    rw [GameState.next_score, GameState.next_tail_length]
    constructor <;> intro hg <;> simp [hg]

/-- C6 witness: the fresh 5×5 game is reachable and has score equal to body
length, and its first tick is a non-growth tick that changes neither. -/
theorem C6_score_eq_tail_length_witness :
    (GameState.new 5 5 0 0).score = (GameState.new 5 5 0 0).snake.tail.length ∧
    ((GameState.new 5 5 0 0).get_action none).must_grow = false ∧
    ((GameState.new 5 5 0 0).advance none 0 0).score = (GameState.new 5 5 0 0).score ∧
    ((GameState.new 5 5 0 0).advance none 0 0).snake.tail.length =
      (GameState.new 5 5 0 0).snake.tail.length :=
  ⟨C6_score_eq_tail_length.1 (GameState.new 5 5 0 0) (Reachable.fresh 5 5 0 0),
   by decide,
   ((C6_score_eq_tail_length.2 (GameState.new 5 5 0 0) none 0 0).2 (by decide)).1,
   ((C6_score_eq_tail_length.2 (GameState.new 5 5 0 0) none 0 0).2 (by decide)).2⟩

/-- The scenario state of C7: 5×5 grid, head (2,2), heading Right, empty
body, target at (1,1) (a non-growth tick), empty log. -/
def c7_state : GameState :=
  { snake := { head := Position.mk 2 2, tail := [], direction := Direction.Right, grow := false }
    food := { position := Position.mk 1 1 }
    score := 0
    game_width := 5
    game_height := 5
    actions := [] }

/-- C7 counterexample: after one tick of `c7_state` the single log entry
records head (2,2) — the pre-move head — while the resulting post-move head
is (3,2), so the appended action does not record the post-move head. -/
theorem C7_counterexample :
    (c7_state.advance none 0 0).actions.map (fun a => a.snake_head) = [Position.mk 2 2] ∧
    (c7_state.advance none 0 0).snake.head = Position.mk 3 2 ∧
    Position.mk 2 2 ≠ Position.mk 3 2 := by
  decide

/-- C7 amended: each tick appends exactly one action to the log (the log
after the call is the log before with one entry appended, nothing modified
or removed), and that action records the *pre-move* head position together
with the direction change actually applied and the growth flag of the tick. -/
theorem C7_log_appends_premove_head :
    ∀ (s : GameState) (input : Option KeyCode) (rx ry : Nat),
      (s.advance input rx ry).actions = s.actions ++ [s.get_action input] ∧
      (s.get_action input).snake_head = s.snake.head ∧
      (s.advance input rx ry).snake.direction =
        (s.get_action input).change_direction.getD s.snake.direction ∧
      (s.get_action input).must_grow = (s.snake.head == s.food.position) := by
  intro s input rx ry
  exact ⟨GameState.next_actions s _ rx ry,
    GameState.get_action_snake_head s input,
    GameState.next_direction s _ rx ry,
    GameState.get_action_must_grow s input⟩

end SnakeGame
